import Mathlib

/-!
# Verification of the input layer of `muc282-lab4`

Shallow embedding of `src/src/engine/input.ts` (the authoritative version) and,
where a claim requires it, of the older variant in `src/unnamed/part_001`.
Numbers are modelled as rationals (`ℚ`): the JavaScript arithmetic involved
(addition, subtraction, division, comparison) is exact on the decimal literals
used by the engine, so `ℚ` is a faithful model of the reachable values.

The file first embeds the data model and operations, then states and proves
the theorems.
-/

namespace Input

/-! ## Action state machine (`InputManager.addAction` update closures)

A TypeScript `InputAction` stores `active`, `wasActive` and `bufferDuration`
(the remaining buffer seconds of the action) as mutable fields, mutated by the
`update` closure installed by `addAction`.  We embed that mutable record as an
explicit state, and each closure as a state-transformer.  The trigger lists
(`keys`, `buttons`) do not affect the update closures and are carried
separately in `InputAction` below. -/

structure ActionState where
  active : Bool
  wasActive : Bool
  /-- The `bufferDuration` field of the action object: remaining buffer seconds. -/
  bufferDuration : ℚ
  deriving Repr, DecidableEq

/-- Initial transient state installed by `addAction`:
`active: false, wasActive: false, bufferDuration: 0` (input.ts lines 510-519). -/
def ActionState.init : ActionState :=
  { active := false, wasActive := false, bufferDuration := 0 }

/-- The `"hold"` update closure (input.ts lines 522-526): `action.active = pressed`. -/
def holdUpdate (s : ActionState) (pressed : Bool) (_dt : ℚ) : ActionState :=
  { s with active := pressed }

/-- The `"press"` update closure (input.ts lines 528-547).  `engineBuffer` is
`this.bufferDuration` of the `InputManager`, read at update time. -/
def pressUpdate (engineBuffer : ℚ) (s : ActionState) (pressed : Bool) (dt : ℚ) :
    ActionState :=
  if pressed then
    if s.bufferDuration > 0 then
      { s with bufferDuration := s.bufferDuration - dt, active := true }
    else if s.wasActive then
      { s with active := false }
    else
      { s with active := true, wasActive := true, bufferDuration := engineBuffer }
  else
    { s with wasActive := false, active := false }

/-- The `"press"` update closure of the older source `src/unnamed/part_001`
(lines 434-453), whose only difference is the non-strict buffer comparison
`action.bufferDuration >= 0`. -/
def pressUpdateGE (engineBuffer : ℚ) (s : ActionState) (pressed : Bool) (dt : ℚ) :
    ActionState :=
  if pressed then
    if s.bufferDuration ≥ 0 then
      { s with bufferDuration := s.bufferDuration - dt, active := true }
    else if s.wasActive then
      { s with active := false }
    else
      { s with active := true, wasActive := true, bufferDuration := engineBuffer }
  else
    { s with wasActive := false, active := false }

/-- Run the `"press"` update over a list of per-frame `(pressed, dt)` inputs,
returning the state after each frame. -/
def runPress (engineBuffer : ℚ) : ActionState → List (Bool × ℚ) → List ActionState
  | _, [] => []
  | s, (p, dt) :: rest =>
      pressUpdate engineBuffer s p dt :: runPress engineBuffer (pressUpdate engineBuffer s p dt) rest

/-- Run the older `>= 0` variant of the `"press"` update over per-frame inputs. -/
def runPressGE (engineBuffer : ℚ) : ActionState → List (Bool × ℚ) → List ActionState
  | _, [] => []
  | s, (p, dt) :: rest =>
      pressUpdateGE engineBuffer s p dt ::
        runPressGE engineBuffer (pressUpdateGE engineBuffer s p dt) rest

/-- The `active` value reported on each frame of a run of the `"press"` update. -/
def pressActives (engineBuffer : ℚ) (s : ActionState) (inputs : List (Bool × ℚ)) :
    List Bool :=
  (runPress engineBuffer s inputs).map ActionState.active

/-- The `active` value reported on each frame of a run of the older `>= 0` variant. -/
def pressActivesGE (engineBuffer : ℚ) (s : ActionState) (inputs : List (Bool × ℚ)) :
    List Bool :=
  (runPressGE engineBuffer s inputs).map ActionState.active

/-- Five consecutive frames with the given `pressed` flag, `dt = 0.016` each. -/
def fiveFrames (pressed : Bool) : List (Bool × ℚ) :=
  List.replicate 5 (pressed, 16/1000)

/-! ## Gamepad data model (`GamepadManager`, input.ts lines 16-344)

A hardware snapshot (the JS `Gamepad` API object) is an array of button
entries (a `pressed` flag plus an analog `value`) and an array of raw axis
readings.  We read both arrays with `List.getD`, defaulting to a neutral
entry; every claim below supplies snapshots long enough that the default is
never reached, matching the in-bounds accesses of the source. -/

structure GamepadButtonEntry where
  pressed : Bool
  value : ℚ
  deriving Repr, DecidableEq

structure GamepadSnapshot where
  buttons : List GamepadButtonEntry
  axes : List ℚ
  deriving Repr, DecidableEq

/-- The `GamepadButton` enum (input.ts lines 16-61). -/
inductive GamepadButton where
  | A | B | X | Y
  | LEFT_BUMPER | RIGHT_BUMPER
  | LEFT_TRIGGER | RIGHT_TRIGGER
  | SHARE | OPTIONS
  | LEFT_STICK_CLICK | RIGHT_STICK_CLICK
  | DPAD_UP | DPAD_DOWN | DPAD_LEFT | DPAD_RIGHT
  | HOME
  | LEFT_TRIGGER_FULL_PULL | RIGHT_TRIGGER_FULL_PULL
  deriving Repr, DecidableEq

/-- The numeric value TypeScript assigns each `GamepadButton` enum member,
used to index the snapshot's button array (input.ts line 262). -/
def GamepadButton.index : GamepadButton → Nat
  | .A => 0 | .B => 1 | .X => 2 | .Y => 3
  | .LEFT_BUMPER => 4 | .RIGHT_BUMPER => 5
  | .LEFT_TRIGGER => 6 | .RIGHT_TRIGGER => 7
  | .SHARE => 8 | .OPTIONS => 9
  | .LEFT_STICK_CLICK => 10 | .RIGHT_STICK_CLICK => 11
  | .DPAD_UP => 12 | .DPAD_DOWN => 13 | .DPAD_LEFT => 14 | .DPAD_RIGHT => 15
  | .HOME => 16
  | .LEFT_TRIGGER_FULL_PULL => 17 | .RIGHT_TRIGGER_FULL_PULL => 18

/-- The `GamepadAxis` enum (input.ts lines 63-70). -/
inductive GamepadAxis where
  | LEFT_STICK_X | LEFT_STICK_Y | RIGHT_STICK_X | RIGHT_STICK_Y
  | LEFT_TRIGGER | RIGHT_TRIGGER
  deriving Repr, DecidableEq

/-- The numeric value TypeScript assigns each `GamepadAxis` enum member,
used to index the snapshot's axis array (input.ts line 300). -/
def GamepadAxis.index : GamepadAxis → Nat
  | .LEFT_STICK_X => 0 | .LEFT_STICK_Y => 1
  | .RIGHT_STICK_X => 2 | .RIGHT_STICK_Y => 3
  | .LEFT_TRIGGER => 4 | .RIGHT_TRIGGER => 5

/-- The `GamepadThumbstick` enum (input.ts line 72). -/
inductive GamepadThumbstick where
  | LEFT | RIGHT
  deriving Repr, DecidableEq

/-- Embedding of `applyDeadzone` (input.ts lines 147-157), a direct translation.  The
source shadows `outer` with `1 - outer`; we use `outer1` for the shadowed
value. -/
def applyDeadzone (value inner outer : ℚ) : ℚ :=
  if |value| < inner then 0
  else
    let outer1 := 1 - outer
    if |value| > outer1 then (if value < 0 then -1 else 1)
    else
      let mapped := (1 / (outer1 - inner)) * (|value| - inner)
      if value < 0 then -mapped else mapped

/-- The queryable state of a `GamepadManager`: the held snapshot (`null` when
disconnected), the trigger-mode flag, and the two deadzone settings
(input.ts lines 178-201).  The polling callbacks that fill `gamepad` and
`triggersAreAxes` belong to the host environment and are outside the
per-query semantics embedded here. -/
structure GamepadManager where
  gamepad : Option GamepadSnapshot
  triggersAreAxes : Bool
  innerDeadzone : ℚ := 1/10
  outerDeadzone : ℚ := 1/20
  deriving Repr, DecidableEq

/-- Neutral button entry used as the `List.getD` default; never reached on
the well-formed snapshots the claims quantify over. -/
def GamepadButtonEntry.neutral : GamepadButtonEntry :=
  { pressed := false, value := 0 }

/-- Embedding of `GamepadManager.buttonPressed` (input.ts lines 246-264). -/
def GamepadManager.buttonPressed (m : GamepadManager) (button : GamepadButton) : Bool :=
  match m.gamepad with
  | none => false
  | some g =>
    if button = GamepadButton.LEFT_TRIGGER_FULL_PULL then
      if m.triggersAreAxes then decide (g.axes.getD 4 0 = 1)
      else decide ((g.buttons.getD 6 GamepadButtonEntry.neutral).value = 1)
    else if button = GamepadButton.RIGHT_TRIGGER_FULL_PULL then
      if m.triggersAreAxes then decide (g.axes.getD 5 0 = 1)
      else decide ((g.buttons.getD 7 GamepadButtonEntry.neutral).value = 1)
    else
      (g.buttons.getD button.index GamepadButtonEntry.neutral).pressed

/-- Embedding of `GamepadManager.axisValue` (input.ts lines 273-304). -/
def GamepadManager.axisValue (m : GamepadManager) (axis : GamepadAxis)
    (rawValue : Bool := false) : ℚ :=
  match m.gamepad with
  | none => 0
  | some g =>
    if axis = GamepadAxis.LEFT_TRIGGER then
      if m.triggersAreAxes then (g.axes.getD 4 0 + 1) / 2
      else (g.buttons.getD 6 GamepadButtonEntry.neutral).value
    else if axis = GamepadAxis.RIGHT_TRIGGER then
      if m.triggersAreAxes then (g.axes.getD 5 0 + 1) / 2
      else (g.buttons.getD 7 GamepadButtonEntry.neutral).value
    else
      let value := g.axes.getD axis.index 0
      if rawValue then value else applyDeadzone value m.innerDeadzone m.outerDeadzone

/-- The 2D vector class from `src/math/vector.js`.  Its constructor stores
the two components (input.ts lines 311-323 pass the two axis values). -/
structure Vector2D where
  x : ℚ
  y : ℚ
  deriving Repr, DecidableEq

/-- Embedding of `GamepadManager.stickPos` (input.ts lines 311-324). -/
def GamepadManager.stickPos (m : GamepadManager) (stick : GamepadThumbstick)
    (rawValue : Bool := false) : Vector2D :=
  if stick = GamepadThumbstick.LEFT then
    { x := m.axisValue GamepadAxis.LEFT_STICK_X rawValue,
      y := m.axisValue GamepadAxis.LEFT_STICK_Y rawValue }
  else
    { x := m.axisValue GamepadAxis.RIGHT_STICK_X rawValue,
      y := m.axisValue GamepadAxis.RIGHT_STICK_Y rawValue }

/-- Modelled from the spec: `Vector2D.normalize` lives in `src/math/vector.js`,
which is not part of the repository snapshot.  The spec (§4.1
`stickDirection`) requires "the above position normalized to unit length
(zero vector stays zero; do not divide by zero)".  Normalizing leaves the
rationals, so the result is a pair of reals. -/
noncomputable def Vector2D.normalize (v : Vector2D) : ℝ × ℝ :=
  if v.x = 0 ∧ v.y = 0 then (0, 0)
  else ((v.x : ℝ) / Real.sqrt ((v.x : ℝ) ^ 2 + (v.y : ℝ) ^ 2),
        (v.y : ℝ) / Real.sqrt ((v.x : ℝ) ^ 2 + (v.y : ℝ) ^ 2))

/-- Embedding of `GamepadManager.stickVector` (input.ts lines 330-332):
`this.stickPos(stick).normalize()`. -/
noncomputable def GamepadManager.stickVector (m : GamepadManager)
    (stick : GamepadThumbstick) : ℝ × ℝ :=
  (m.stickPos stick).normalize

/-- Embedding of `GamepadManager.connected` (input.ts line 343): `this.gamepad !== null`. -/
def GamepadManager.connected (m : GamepadManager) : Bool :=
  m.gamepad.isSome

/-! ## Action registry (`InputManager`, input.ts lines 349-566)

The registry `this.actions` is a string-keyed object; we embed it as an
association list with the object's update semantics (`actions[name] = action`
overwrites in place or appends).  The two `throw new InvalidArgumentError`
sites are embedded as an `Except` error.  The source uses the single class
`InvalidArgumentError` for both; the spec distinguishes the two conditions as
*invalid-argument* (registration with no triggers) and *not-found* (query of
an unregistered name), so the error type carries one constructor per throw
site, each holding the source's message. -/

inductive InputError where
  /-- Thrown by `addAction` when the action has no keys or buttons (line 487). -/
  | invalidArgument (msg : String)
  /-- Thrown by `isActive` when the name is not registered (line 564). -/
  | notFound (msg : String)
  deriving Repr, DecidableEq

/-- The `type` parameter of `addAction`: `"press" | "hold"`. -/
inductive ActionType where
  | press | hold
  deriving Repr, DecidableEq

/-- A registered action.  The TypeScript record stores its `update` closure;
here the closure is recovered from `type` via `holdUpdate` / `pressUpdate`,
and the transient fields live in `state`. -/
structure InputAction where
  state : ActionState
  keys : List String
  buttons : List (Option GamepadButton)
  type : ActionType
  deriving Repr, DecidableEq

/-- The registry `this.actions`, keyed by action name. -/
abbrev Actions := List (String × InputAction)

/-- The `GAMEPAD_BUTTON_LOOKUP` table (input.ts lines 75-95).  An unknown
name indexes the object to `undefined`, embedded as `none`. -/
def GAMEPAD_BUTTON_LOOKUP (key : String) : Option GamepadButton :=
  if key = "a" then some .A
  else if key = "b" then some .B
  else if key = "x" then some .X
  else if key = "y" then some .Y
  else if key = "left bumper" then some .LEFT_BUMPER
  else if key = "right bumper" then some .RIGHT_BUMPER
  else if key = "left trigger" then some .LEFT_TRIGGER
  else if key = "right trigger" then some .RIGHT_TRIGGER
  else if key = "share" then some .SHARE
  else if key = "options" then some .OPTIONS
  else if key = "left stick click" then some .LEFT_STICK_CLICK
  else if key = "right stick click" then some .RIGHT_STICK_CLICK
  else if key = "dpad up" then some .DPAD_UP
  else if key = "dpad down" then some .DPAD_DOWN
  else if key = "dpad left" then some .DPAD_LEFT
  else if key = "dpad right" then some .DPAD_RIGHT
  else if key = "home" then some .HOME
  else if key = "left trigger full pull" then some .LEFT_TRIGGER_FULL_PULL
  else if key = "right trigger full pull" then some .RIGHT_TRIGGER_FULL_PULL
  else none

/-- Embedding of JavaScript `toLowerCase()` on the ASCII key names the engine
uses: lower-case every character.  This is `String.toLower` stated by
structural recursion over the character list, so that it evaluates on
literals. -/
def lowerString (s : String) : String :=
  ⟨s.data.map Char.toLower⟩

/-- The per-key body of the `addAction` key loop (input.ts lines 494-508):
lower-case the name, then expand the three modifier pseudo-names to their
left/right variants. -/
def expandKey (k : String) : List String :=
  let k := lowerString k
  if k = "shift" then ["left shift", "right shift"]
  else if k = "alt" then ["left alt", "right alt"]
  else if k = "control" then ["left control", "right control"]
  else [k]

/-- A `buttons` argument entry of `addAction`: a symbolic string or an
already-typed `GamepadButton` (input.ts line 484). -/
inductive ButtonArg where
  | str (s : String)
  | btn (b : GamepadButton)
  deriving Repr, DecidableEq

/-- The `buttons.map` of `addAction` (input.ts line 514): strings go through
`GAMEPAD_BUTTON_LOOKUP` (possibly to `undefined`), typed buttons pass through. -/
def resolveButton : ButtonArg → Option GamepadButton
  | .str s => GAMEPAD_BUTTON_LOOKUP s
  | .btn b => some b

/-- Object-assignment semantics of `this.actions[name] = action`
(input.ts line 550): overwrite an existing key in place, else append. -/
def setAction (actions : Actions) (name : String) (a : InputAction) : Actions :=
  if (actions.map Prod.fst).contains name then
    actions.map fun p => if p.1 = name then (name, a) else p
  else
    actions ++ [(name, a)]

/-- Embedding of `InputManager.addAction` (input.ts lines 483-551) as a
function of the registry.  The returned pair is the call's outcome and the
registry afterwards: a throw happens before `this.actions[name] = action`
(line 550), so the error case returns the registry unchanged. -/
def addAction (actions : Actions) (name : String) (keys : List String := [])
    (buttons : List ButtonArg := []) (type : ActionType := .hold) :
    Except InputError Unit × Actions :=
  if keys.length = 0 ∧ buttons.length = 0 then
    (.error (.invalidArgument
      ("[InputManager] The action " ++ name ++ " has no keys or buttons assigned to it.")),
     actions)
  else
    let actionKeys := keys.flatMap expandKey
    (.ok (),
     setAction actions name
      { state := ActionState.init
        keys := actionKeys
        buttons := buttons.map resolveButton
        type := type })

/-- Registry lookup, the embedding of `this.actions.hasOwnProperty(name)` /
`this.actions[name]`: first (and, by `setAction`, only) entry with the key.
Object-key lookup in JavaScript is case-sensitive, as is the string equality
used here. -/
def findAction (actions : Actions) (name : String) : Option InputAction :=
  (actions.find? fun p => p.1 = name).map Prod.snd

/-- The single mutation `isActive` performs (input.ts line 561): set the
named action's `bufferDuration` to `0`. -/
def clearBuffer (actions : Actions) (name : String) : Actions :=
  actions.map fun p =>
    if p.1 = name then (p.1, { p.2 with state := { p.2.state with bufferDuration := 0 } })
    else p

/-- Embedding of `InputManager.isActive` (input.ts lines 557-565).  The
returned pair is the call's outcome and the registry afterwards: for a
registered name it reads the current `active` flag and clears that action's
buffer; for an unregistered name it throws *not-found*, leaving the registry
unchanged. -/
def isActive (actions : Actions) (name : String) : Except InputError Bool × Actions :=
  match findAction actions name with
  | some a => (.ok a.state.active, clearBuffer actions name)
  | none =>
      (.error (.notFound
        ("[InputManager] The action \x22" ++ name ++ "\x22 does not exist.")),
       actions)

/-- Step 2a of the per-frame reconciliation (input.ts line 456):
`action.keys.some((k) => this.keyStates[k])`, with `keyStates` the
key-state table. -/
def rawKeyPressed (keyStates : String → Bool) (a : InputAction) : Bool :=
  a.keys.any keyStates

/-- A concrete registry holding one PRESS-mode action whose press is within
its buffered window: `active = true`, `bufferDuration = 0.03 > 0`. -/
def regC2 : Actions :=
  [("jump",
    { state := { active := true, wasActive := true, bufferDuration := 3/100 },
      keys := ["z"], buttons := [], type := ActionType.press })]

/-- The registry produced by registering `"Jump"` (capital J) with key
`["z"]` into an empty manager. -/
def regJump : Actions :=
  (addAction [] "Jump" ["z"]).2

end Input

namespace Input

/-! ## Theorems -/

/-- C6: for every HOLD-mode action and every frame, after the per-frame update
is fed `(rawPressed, dt)`, the action's `active` flag equals `rawPressed`
exactly, regardless of `dt` and of any prior state. -/
theorem holdUpdate_tracks_pressed :
    ∀ (s : ActionState) (pressed : Bool) (dt : ℚ),
      (holdUpdate s pressed dt).active = pressed := by
  intro s pressed dt
  rfl

/-- C1 counterexample: with `bufferDuration = 0.03` and five pressed frames of
`dt = 0.016` from the initial state, the PRESS update does *not* report the
claimed sequence `[true, true, false, false, false]`: on frame 3 the
remaining buffer is `0.03 - 0.016 = 0.014 > 0`, so frame 3 still reports
`active = true`. -/
theorem pressBuffer_claim_counterexample :
    pressActives (3/100) ActionState.init (fiveFrames true) ≠
      [true, true, false, false, false] := by
  have h : pressActives (3/100) ActionState.init (fiveFrames true) =
      [true, true, true, false, false] := by
    norm_num [pressActives, runPress, pressUpdate, ActionState.init, fiveFrames,
      List.replicate]
  rw [h]
  decide

/-- C1 (amended): with engine `bufferDuration = 0.03` and `pressed = true` fed
for 5 consecutive frames of `dt = 0.016` from the initial state, the PRESS
update reports `active = true` on frames 1-3 (the buffer, decremented on
frames 2 and 3, is still positive on frame 3) and `active = false` on frames
4-5; after one released frame, pressing again for 5 frames reproduces the
same sequence identically. -/
theorem pressBuffer_five_frames :
    pressActives (3/100) ActionState.init
        (fiveFrames true ++ (false, 16/1000) :: fiveFrames true) =
      [true, true, true, false, false] ++ false :: [true, true, true, false, false] := by
  norm_num [pressActives, runPress, pressUpdate, ActionState.init, fiveFrames,
    List.replicate]

/-- C9: the authoritative PRESS update (strict `> 0` buffer comparison,
input.ts line 530) and the older variant from `src/unnamed/part_001`
(non-strict `>= 0`, line 436) are not extensionally equal: on four pressed
frames of `dt = 0.015` they produce different `active` values, and on the
exact frame the remaining buffer has reached zero (state
`wasActive = true, bufferDuration = 0`) the strict variant reports `false`
while the non-strict one reports `true`. -/
theorem press_gt_ge_variants_differ :
    pressActives (3/100) ActionState.init (List.replicate 4 (true, 15/1000)) =
        [true, true, true, false] ∧
    pressActivesGE (3/100) ActionState.init (List.replicate 4 (true, 15/1000)) =
        [true, true, true, true] ∧
    pressActives (3/100) ActionState.init (List.replicate 4 (true, 15/1000)) ≠
        pressActivesGE (3/100) ActionState.init (List.replicate 4 (true, 15/1000)) ∧
    (pressUpdate (3/100)
        { active := true, wasActive := true, bufferDuration := 0 } true (15/1000)).active
        = false ∧
    (pressUpdateGE (3/100)
        { active := true, wasActive := true, bufferDuration := 0 } true (15/1000)).active
        = true := by
  have h1 : pressActives (3/100) ActionState.init (List.replicate 4 (true, 15/1000)) =
      [true, true, true, false] := by
    norm_num [pressActives, runPress, pressUpdate, ActionState.init, List.replicate]
  have h2 : pressActivesGE (3/100) ActionState.init (List.replicate 4 (true, 15/1000)) =
      [true, true, true, true] := by
    norm_num [pressActivesGE, runPressGE, pressUpdateGE, ActionState.init, List.replicate]
  refine ⟨h1, h2, ?_, ?_, ?_⟩
  · rw [h1, h2]; decide
  · norm_num [pressUpdate]
  · norm_num [pressUpdateGE]

/-- C10: the release branch of the PRESS update resets `wasActive` and
`active` but leaves `bufferDuration` untouched; a pressed frame taken while
`bufferDuration > 0` and `wasActive = false` reports `active = true` through
the buffer branch, decrementing the buffer without setting `wasActive`; and a
pressed frame taken once the buffer is exhausted (`bufferDuration ≤ 0`) with
`wasActive = false` fires through the first-press branch, so a leftover
buffer from before a release makes the action fire again with no intervening
release. -/
theorem pressRelease_preserves_buffer :
    ∀ (eb : ℚ) (s : ActionState) (dt : ℚ),
      (pressUpdate eb s false dt = { s with wasActive := false, active := false }) ∧
      (s.wasActive = false → 0 < s.bufferDuration →
        pressUpdate eb s true dt =
          { s with active := true, bufferDuration := s.bufferDuration - dt }) ∧
      (s.wasActive = false → s.bufferDuration ≤ 0 →
        pressUpdate eb s true dt =
          { s with active := true, wasActive := true, bufferDuration := eb }) := by
  intro eb s dt
  refine ⟨rfl, ?_, ?_⟩
  · intro hw hb
    simp only [pressUpdate, if_pos hb, if_true]
  · intro hw hb
    simp only [pressUpdate, if_true, if_neg (not_lt.mpr hb), hw]
    simp

/-- C10 witness: from the released state `⟨false, false, 0.02⟩` (leftover
buffer `0.02`), one pressed frame of `dt = 0.016` reports `active = true`
through the buffer branch without setting `wasActive`. -/
theorem pressRelease_preserves_buffer_witness :
    pressUpdate (3/100) { active := false, wasActive := false, bufferDuration := 2/100 }
        true (16/1000) =
      { active := true, wasActive := false, bufferDuration := 2/100 - 16/1000 } :=
  (pressRelease_preserves_buffer (3/100)
    { active := false, wasActive := false, bufferDuration := 2/100 } (16/1000)).2.1
    rfl (by norm_num)

/-- Clearing a buffer rewrites exactly the looked-up action: the lookup after
`clearBuffer` returns the original action with its `bufferDuration` zeroed. -/
theorem findAction_clearBuffer (acts : Actions) (name : String) :
    findAction (clearBuffer acts name) name =
      (findAction acts name).map
        (fun a => { a with state := { a.state with bufferDuration := 0 } }) := by
  induction acts with
  | nil => rfl
  | cons p rest ih =>
    obtain ⟨k, a⟩ := p
    by_cases h : k = name
    · subst h
      simp [findAction, clearBuffer]
    · simp only [findAction, clearBuffer, List.map_cons] at ih ⊢
      rw [if_neg h]
      rw [List.find?_cons_of_neg, List.find?_cons_of_neg]
      · exact ih
      · simpa using h
      · simpa using h

/-- C2 counterexample: on the concrete registry `regC2`, whose `"jump"`
action is a PRESS action with `active = true` and a positive remaining
buffer, two consecutive `isActive` calls with no per-frame update in between
both return `true`; the second call does not return `false` as claimed,
because `isActive` clears only `bufferDuration` and never changes `active`. -/
theorem isActive_consume_counterexample :
    (isActive regC2 "jump").1 = .ok true ∧
    (isActive (isActive regC2 "jump").2 "jump").1 = .ok true ∧
    (isActive (isActive regC2 "jump").2 "jump").1 ≠ .ok false := by
  refine ⟨rfl, rfl, ?_⟩
  have h : (isActive (isActive regC2 "jump").2 "jump").1 = .ok true := rfl
  rw [h]
  simp

/-- C2 (amended): for any registered PRESS-mode action whose state has
`active = true` and `remainingBufferSeconds > 0`, two consecutive `isActive`
calls with no per-frame update in between both return `true`; the first call
clears the action's remaining buffer to `0`, so the consumption of the
buffered window takes effect at the next per-frame update rather than on the
second query. -/
theorem isActive_clears_buffer :
    ∀ (acts : Actions) (name : String) (a : InputAction),
      findAction acts name = some a →
      a.state.active = true →
      0 < a.state.bufferDuration →
      isActive acts name = (.ok true, clearBuffer acts name) ∧
      findAction (clearBuffer acts name) name =
        some { a with state := { a.state with bufferDuration := 0 } } ∧
      (isActive (clearBuffer acts name) name).1 = .ok true := by
  intro acts name a hf ha _hb
  have hc := findAction_clearBuffer acts name
  rw [hf] at hc
  refine ⟨by simp [isActive, hf, ha], by simpa using hc, ?_⟩
  simp [isActive, hc, ha]

/-- C2 witness: the amended behaviour at the concrete registry `regC2`. -/
theorem isActive_clears_buffer_witness :
    isActive regC2 "jump" = (.ok true, clearBuffer regC2 "jump") ∧
    findAction (clearBuffer regC2 "jump") "jump" =
      some { state := { active := true, wasActive := true, bufferDuration := 0 },
             keys := ["z"], buttons := [], type := ActionType.press } ∧
    (isActive (clearBuffer regC2 "jump") "jump").1 = .ok true :=
  isActive_clears_buffer regC2 "jump"
    { state := { active := true, wasActive := true, bufferDuration := 3/100 },
      keys := ["z"], buttons := [], type := ActionType.press }
    rfl rfl (by norm_num)

/-- C7: `addAction` raises the *invalid-argument* condition exactly when both
trigger lists are empty, leaving the registry unchanged; with only
`keys = ["shift"]` it succeeds and registers the key set
`["left shift", "right shift"]`, either of which being down makes
`rawPressed` true; `"alt"` and `"control"` expand likewise, and every other
key name is registered lower-cased. -/
theorem addAction_validation :
    (∀ (acts : Actions) (name : String) (type : ActionType),
      addAction acts name [] [] type =
        (.error (.invalidArgument
          ("[InputManager] The action " ++ name ++
            " has no keys or buttons assigned to it.")),
         acts)) ∧
    (∀ (acts : Actions) (name : String) (keys : List String) (buttons : List ButtonArg)
        (type : ActionType), keys ≠ [] ∨ buttons ≠ [] →
      addAction acts name keys buttons type =
        (.ok (), setAction acts name
          { state := ActionState.init, keys := keys.flatMap expandKey,
            buttons := buttons.map resolveButton, type := type })) ∧
    (∀ (acts : Actions) (name : String) (type : ActionType),
      addAction acts name ["shift"] [] type =
        (.ok (), setAction acts name
          { state := ActionState.init, keys := ["left shift", "right shift"],
            buttons := [], type := type })) ∧
    (∀ (ks : String → Bool) (a : InputAction),
      a.keys = ["left shift", "right shift"] →
      ks "left shift" = true ∨ ks "right shift" = true →
      rawKeyPressed ks a = true) ∧
    expandKey "alt" = ["left alt", "right alt"] ∧
    expandKey "control" = ["left control", "right control"] ∧
    (∀ k : String, lowerString k ≠ "shift" → lowerString k ≠ "alt" →
      lowerString k ≠ "control" → expandKey k = [lowerString k]) := by
  refine ⟨fun acts name type => rfl, ?_, fun acts name type => rfl, ?_, by decide,
    by decide, ?_⟩
  · intro acts name keys buttons type h
    have hc : ¬(keys.length = 0 ∧ buttons.length = 0) := by
      rcases h with h | h
      · exact fun hx => h (List.length_eq_zero.mp hx.1)
      · exact fun hx => h (List.length_eq_zero.mp hx.2)
    simp only [addAction, if_neg hc]
  · intro ks a ha hk
    rcases hk with hk | hk <;> simp [rawKeyPressed, ha, hk]
  · intro k h1 h2 h3
    simp [expandKey, h1, h2, h3]

/-- C7 witness: the invalid-argument error on a concrete empty registration,
the concrete `["shift"]` registration, and lower-casing of a concrete key. -/
theorem addAction_validation_witness :
    addAction [] "noop" [] [] ActionType.hold =
      (.error (.invalidArgument
        ("[InputManager] The action " ++ "noop" ++
          " has no keys or buttons assigned to it.")),
       []) ∧
    addAction [] "sprint" ["shift"] [] ActionType.hold =
      (.ok (), setAction [] "sprint"
        { state := ActionState.init, keys := ["left shift", "right shift"],
          buttons := [], type := ActionType.hold }) ∧
    expandKey "A" = [lowerString "A"] :=
  ⟨addAction_validation.1 [] "noop" ActionType.hold,
   addAction_validation.2.2.1 [] "sprint" ActionType.hold,
   addAction_validation.2.2.2.2.2.2 "A" (by decide) (by decide) (by decide)⟩

/-- C8: querying a name with no registry entry fails with the *not-found*
condition and leaves the registry (hence every registered action's state)
unchanged; lookup is case-sensitive, so after registering `"Jump"` the query
`isActive "jump"` fails with *not-found* while `isActive "Jump"` succeeds. -/
theorem isActive_notFound :
    (∀ (acts : Actions) (name : String),
      findAction acts name = none →
      isActive acts name =
        (.error (.notFound
          ("[InputManager] The action \x22" ++ name ++ "\x22 does not exist.")),
         acts)) ∧
    isActive regJump "jump" =
      (.error (.notFound
        ("[InputManager] The action \x22" ++ "jump" ++ "\x22 does not exist.")),
       regJump) ∧
    (isActive regJump "Jump").1 = .ok false := by
  refine ⟨?_, ?_, rfl⟩
  · intro acts name h
    simp [isActive, h]
  · rfl

/-- C8 witness: the not-found failure at the concrete empty registry. -/
theorem isActive_notFound_witness :
    isActive [] "anything" =
      (.error (.notFound
        ("[InputManager] The action \x22" ++ "anything" ++ "\x22 does not exist.")),
       []) :=
  isActive_notFound.1 [] "anything" rfl

/-- C5: whenever no gamepad snapshot is held, every `GamepadManager` query
returns its neutral value: `buttonPressed` is `false` for every button,
`axisValue` is `0` for every axis and either `rawValue` flag, `stickPos` is
the zero vector, and `stickVector` is the zero vector.  All queries are total
functions, so none can raise. -/
theorem disconnected_neutral :
    ∀ (m : GamepadManager), m.gamepad = none →
      m.connected = false ∧
      (∀ b : GamepadButton, m.buttonPressed b = false) ∧
      (∀ (ax : GamepadAxis) (raw : Bool), m.axisValue ax raw = 0) ∧
      (∀ (st : GamepadThumbstick) (raw : Bool), m.stickPos st raw = { x := 0, y := 0 }) ∧
      (∀ st : GamepadThumbstick, m.stickVector st = (0, 0)) := by
  intro m h
  have hax : ∀ (ax : GamepadAxis) (raw : Bool), m.axisValue ax raw = 0 := by
    intro ax raw
    simp [GamepadManager.axisValue, h]
  have hsp : ∀ (st : GamepadThumbstick) (raw : Bool),
      m.stickPos st raw = { x := 0, y := 0 } := by
    intro st raw
    cases st <;> simp [GamepadManager.stickPos, hax]
  refine ⟨by simp [GamepadManager.connected, h],
    fun b => by simp [GamepadManager.buttonPressed, h], hax, hsp, ?_⟩
  intro st
  rw [GamepadManager.stickVector, hsp st false]
  simp [Vector2D.normalize]

/-- C5 witness: the neutral values at a concrete disconnected manager. -/
theorem disconnected_neutral_witness :
    ({ gamepad := none, triggersAreAxes := false } : GamepadManager).connected = false ∧
    (∀ b : GamepadButton,
      ({ gamepad := none, triggersAreAxes := false } : GamepadManager).buttonPressed b
        = false) ∧
    (∀ (ax : GamepadAxis) (raw : Bool),
      ({ gamepad := none, triggersAreAxes := false } : GamepadManager).axisValue ax raw
        = 0) ∧
    (∀ (st : GamepadThumbstick) (raw : Bool),
      ({ gamepad := none, triggersAreAxes := false } : GamepadManager).stickPos st raw
        = { x := 0, y := 0 }) ∧
    (∀ st : GamepadThumbstick,
      ({ gamepad := none, triggersAreAxes := false } : GamepadManager).stickVector st
        = (0, 0)) :=
  disconnected_neutral { gamepad := none, triggersAreAxes := false } rfl

/-- C4: with a connected snapshot, `buttonPressed` on a full-pull trigger
pseudo-button returns `true` exactly when the corresponding analog trigger
reading (`axisValue` on that trigger, which never has deadzone, with either
`rawValue` flag) is exactly `1`; and an axis-mode snapshot and a button-mode
snapshot encoding the same logical pull `p` (axis raw value `2p - 1`, button
analog value `p`) yield identical `buttonPressed` results on both full-pull
pseudo-buttons. -/
theorem fullPull_iff_analog_one :
    (∀ (m : GamepadManager) (g : GamepadSnapshot), m.gamepad = some g → ∀ raw : Bool,
      ((m.buttonPressed GamepadButton.LEFT_TRIGGER_FULL_PULL = true) ↔
        m.axisValue GamepadAxis.LEFT_TRIGGER raw = 1) ∧
      ((m.buttonPressed GamepadButton.RIGHT_TRIGGER_FULL_PULL = true) ↔
        m.axisValue GamepadAxis.RIGHT_TRIGGER raw = 1)) ∧
    (∀ (p : ℚ) (mA mB : GamepadManager) (gA gB : GamepadSnapshot),
      mA.gamepad = some gA → mA.triggersAreAxes = true →
      mB.gamepad = some gB → mB.triggersAreAxes = false →
      gA.axes.getD 4 0 = 2 * p - 1 →
      (gB.buttons.getD 6 GamepadButtonEntry.neutral).value = p →
      gA.axes.getD 5 0 = 2 * p - 1 →
      (gB.buttons.getD 7 GamepadButtonEntry.neutral).value = p →
      mA.buttonPressed GamepadButton.LEFT_TRIGGER_FULL_PULL =
        mB.buttonPressed GamepadButton.LEFT_TRIGGER_FULL_PULL ∧
      mA.buttonPressed GamepadButton.RIGHT_TRIGGER_FULL_PULL =
        mB.buttonPressed GamepadButton.RIGHT_TRIGGER_FULL_PULL) := by
  constructor
  · intro m g h raw
    have hhalf : ∀ a : ℚ, ((a + 1) / 2 = 1) ↔ a = 1 := by
      intro a
      constructor <;> intro h2 <;> linarith
    cases hta : m.triggersAreAxes <;>
      constructor <;>
        simp [GamepadManager.buttonPressed, GamepadManager.axisValue, h, hta,
          decide_eq_true_iff, hhalf]
  · intro p mA mB gA gB hA htA hB htB h4 h6 h5 h7
    have hx : (2 * p - 1 = 1) ↔ (p = 1) := by
      constructor <;> intro h2 <;> linarith
    simp only [List.getD_eq_getElem?_getD] at h4 h5 h6 h7
    constructor
    · simp only [GamepadManager.buttonPressed, hA, hB, htA, htB]
      simp [h4, h6, hx]
    · simp only [GamepadManager.buttonPressed, hA, hB, htA, htB]
      simp [h5, h7, hx]

/-- C4 witness: with an axis-mode snapshot whose left-trigger axis reads `1`,
the full-pull equivalence at `rawValue = true`; and the mode-equivalence at
logical pull `p = 1` (axis raw value `2·1 - 1 = 1`, button analog value `1`). -/
theorem fullPull_iff_analog_one_witness :
    ((({ gamepad := some { buttons := [], axes := [0, 0, 0, 0, 1, 0] },
          triggersAreAxes := true } : GamepadManager).buttonPressed
          GamepadButton.LEFT_TRIGGER_FULL_PULL = true) ↔
      ({ gamepad := some { buttons := [], axes := [0, 0, 0, 0, 1, 0] },
          triggersAreAxes := true } : GamepadManager).axisValue
          GamepadAxis.LEFT_TRIGGER true = 1) ∧
    ((({ gamepad := some { buttons := [], axes := [0, 0, 0, 0, 1, 0] },
          triggersAreAxes := true } : GamepadManager).buttonPressed
          GamepadButton.RIGHT_TRIGGER_FULL_PULL = true) ↔
      ({ gamepad := some { buttons := [], axes := [0, 0, 0, 0, 1, 0] },
          triggersAreAxes := true } : GamepadManager).axisValue
          GamepadAxis.RIGHT_TRIGGER true = 1) :=
  fullPull_iff_analog_one.1
    { gamepad := some { buttons := [], axes := [0, 0, 0, 0, 1, 0] },
      triggersAreAxes := true }
    { buttons := [], axes := [0, 0, 0, 0, 1, 0] } rfl true

/-- C3: the deadzone function returns `0` below the inner threshold, snaps to
`±1` beyond `1 - outer`, and in between equals
`sign(v) · (|v| - inner) / ((1 - outer) - inner)`; it maps `0` to `0` for all
valid thresholds and `1` to `1` at zero thresholds; between the thresholds it
is monotone in the magnitude and Lipschitz (hence continuous) with constant
`1 / ((1 - outer) - inner)`, and its output spans `[0, 1]`: every
`t ∈ [0, 1]` is attained at magnitude `inner + t·((1 - outer) - inner)`. -/
theorem applyDeadzone_spec :
    (∀ (inner outer : ℚ), 0 ≤ inner → inner < 1 → 0 ≤ outer → outer < 1 →
      inner < 1 - outer →
      (∀ v : ℚ, |v| < inner → applyDeadzone v inner outer = 0) ∧
      (∀ v : ℚ, |v| > 1 - outer →
        (0 < v → applyDeadzone v inner outer = 1) ∧
        (v < 0 → applyDeadzone v inner outer = -1)) ∧
      (∀ v : ℚ, inner ≤ |v| → |v| ≤ 1 - outer →
        applyDeadzone v inner outer =
          (if v < 0 then (-1 : ℚ) else 1) * ((|v| - inner) / ((1 - outer) - inner))) ∧
      applyDeadzone 0 inner outer = 0 ∧
      (∀ m1 m2 : ℚ, inner ≤ m1 → m1 ≤ m2 → m2 ≤ 1 - outer →
        applyDeadzone m1 inner outer ≤ applyDeadzone m2 inner outer) ∧
      (∀ m1 m2 : ℚ, inner ≤ m1 → m1 ≤ 1 - outer → inner ≤ m2 → m2 ≤ 1 - outer →
        |applyDeadzone m1 inner outer - applyDeadzone m2 inner outer| =
          |m1 - m2| / ((1 - outer) - inner)) ∧
      (∀ t : ℚ, 0 ≤ t → t ≤ 1 →
        applyDeadzone (inner + t * ((1 - outer) - inner)) inner outer = t)) ∧
    applyDeadzone 1 0 0 = 1 := by
  have happly : ∀ (v inner outer : ℚ), applyDeadzone v inner outer =
      if |v| < inner then 0
      else if |v| > 1 - outer then (if v < 0 then -1 else 1)
      else if v < 0 then -((1 / ((1 - outer) - inner)) * (|v| - inner))
      else (1 / ((1 - outer) - inner)) * (|v| - inner) := by
    intro v inner outer
    rfl
  refine ⟨?_, by norm_num [happly]⟩
  intro inner outer h0i h1i h0o h1o hio
  have hD : 0 < (1 - outer) - inner := by linarith
  have hmid : ∀ v : ℚ, inner ≤ |v| → |v| ≤ 1 - outer →
      applyDeadzone v inner outer =
        (if v < 0 then (-1 : ℚ) else 1) * ((|v| - inner) / ((1 - outer) - inner)) := by
    intro v hv1 hv2
    rw [happly, if_neg (not_lt.mpr hv1), if_neg (not_lt.mpr hv2)]
    split_ifs <;> ring
  have hpos : ∀ m : ℚ, inner ≤ m → m ≤ 1 - outer →
      applyDeadzone m inner outer = (m - inner) / ((1 - outer) - inner) := by
    intro m h1 h2
    have hm : (0 : ℚ) ≤ m := le_trans h0i h1
    have habs : |m| = m := abs_of_nonneg hm
    rw [hmid m (by rwa [habs]) (by rwa [habs]), if_neg (not_lt.mpr hm), habs, one_mul]
  refine ⟨?_, ?_, hmid, ?_, ?_, ?_, ?_⟩
  · intro v hv
    rw [happly, if_pos hv]
  · intro v hv
    have hni : ¬(|v| < inner) := not_lt.mpr (le_of_lt (lt_trans hio hv))
    rw [happly, if_neg hni, if_pos hv]
    constructor
    · intro h0v
      rw [if_neg (not_lt.mpr (le_of_lt h0v))]
    · intro hv0
      rw [if_pos hv0]
  · by_cases hi : (0 : ℚ) < inner
    · rw [happly, if_pos (by simpa using hi)]
    · have hi0 : inner = 0 := le_antisymm (not_lt.mp hi) h0i
      have h2 : ¬(|(0 : ℚ)| > 1 - outer) := by
        rw [abs_zero]
        exact not_lt.mpr (by linarith)
      rw [happly, if_neg (by simpa using hi), if_neg h2]
      simp [hi0]
  · intro m1 m2 h1 h12 h2e
    rw [hpos m1 h1 (le_trans h12 h2e), hpos m2 (le_trans h1 h12) h2e]
    gcongr
  · intro m1 m2 h1 h1e h2 h2e
    rw [hpos m1 h1 h1e, hpos m2 h2 h2e, div_sub_div_same, abs_div, abs_of_pos hD]
    congr 1
    ring_nf
  · intro t ht0 ht1
    have hv0 : (0 : ℚ) ≤ inner + t * ((1 - outer) - inner) := by positivity
    have hv1 : inner ≤ inner + t * ((1 - outer) - inner) := by nlinarith
    have hv2 : inner + t * ((1 - outer) - inner) ≤ 1 - outer := by nlinarith
    rw [hpos _ hv1 hv2]
    field_simp

/-- C3 witness: at the engine defaults `inner = 0.1, outer = 0.05`, the
deadzone maps `0` to `0` and `0.5` through the linear middle formula. -/
theorem applyDeadzone_spec_witness :
    applyDeadzone 0 (1/10) (1/20) = 0 ∧
    applyDeadzone (1/2) (1/10) (1/20) =
      (if (1/2 : ℚ) < 0 then (-1 : ℚ) else 1) *
        ((|(1/2 : ℚ)| - 1/10) / ((1 - 1/20) - 1/10)) :=
  ⟨(applyDeadzone_spec.1 (1/10) (1/20) (by norm_num) (by norm_num) (by norm_num)
      (by norm_num) (by norm_num)).2.2.2.1,
   (applyDeadzone_spec.1 (1/10) (1/20) (by norm_num) (by norm_num) (by norm_num)
      (by norm_num) (by norm_num)).2.2.1 (1/2)
      (by rw [abs_of_pos] <;> norm_num) (by rw [abs_of_pos] <;> norm_num)⟩

end Input
